import Mathlib

/-!
Verification development for the AI Wiki Quiz Generator.

Strings are embedded as lists of characters so that every operation is a
plain computable function on inductive data. The React frontend components
(QuizCard, HistoryTable, the axios API service) are translated directly
from the JavaScript sources. The backend pipeline (URL validation, content
extraction, prompt building, quiz synthesis, caching and persistence) is
not present in the sources, only its README and its frontend callers are;
those components are modelled from the specification, as marked in the
doc comments below.
-/

/-! ## Character-list strings and small utilities -/

abbrev Str := List Char

def str (s : String) : Str := s.toList

def lowerStr (s : Str) : Str := s.map Char.toLower

def beginsWith : Str → Str → Bool
  | [], _ => true
  | _ :: _, [] => false
  | x :: xs, y :: ys => x == y && beginsWith xs ys

def containsSub (needle : Str) : Str → Bool
  | [] => needle.isEmpty
  | c :: rest => beginsWith needle (c :: rest) || containsSub needle rest

/-! ## HistoryTable.truncateUrl, translated from src/unnamed/part_002 lines 23-26 -/

def truncateUrl (url : Str) (maxLength : Nat) : Str :=
  if url.length ≤ maxLength then url else url.take maxLength ++ str "..."

def truncateUrlDefault (url : Str) : Str := truncateUrl url 50

/-! ## QuizCard interaction state, translated from
src/frontend/src/components/QuizCard.jsx -/

structure QuizCardState where
  selectedOption : Option Str
  isAnswered : Bool
  deriving DecidableEq

def initialQuizCardState : QuizCardState := ⟨none, false⟩

def handleOptionClick (showAnswers : Bool) (st : QuizCardState) (opt : Str) :
    QuizCardState :=
  if !st.isAnswered && !showAnswers then { st with selectedOption := some opt }
  else st

def handleSubmit (st : QuizCardState) : QuizCardState :=
  { st with isAnswered := true }

/-! ## The axios API service, translated from src/unnamed/part_001 -/

def apiTimeoutMs : Nat := 60000

structure AxiosError where
  isTimeout : Bool
  responseDetail : Option Str
  deriving DecidableEq

def fallbackGenerateMsg : Str := str "Failed to generate quiz. Please try again."

def generateQuizErrorMessage (e : AxiosError) : Str :=
  match e.responseDetail with
  | some d => if d.isEmpty then fallbackGenerateMsg else d
  | none => fallbackGenerateMsg

/-! The client-side URL gate from src/frontend/src/pages/GenerateQuiz.jsx
lines 28-31. -/

def frontendUrlCheck (u : Str) : Bool :=
  containsSub (str "wikipedia.org/wiki/") u

/-! ## URL parsing and validation

Modelled from the spec: the backend URL Validator (spec section 4.1) is not
among the sources. The contract modelled here: the input must parse as an
absolute HTTP(S) URL whose path is a canonical encyclopedia article path
(a non-empty title segment after "/wiki/", with no namespace colon, which
excludes special/administrative pages such as Special:Random).
Normalization strips fragment and query and lower-cases scheme and host,
leaving the path untouched. -/

def breakFirst (c : Char) : Str → Str × Option Str
  | [] => ([], none)
  | x :: xs =>
    if x = c then ([], some xs)
    else
      let r := breakFirst c xs
      (x :: r.1, r.2)

structure UrlParts where
  scheme : Str
  host : Str
  path : Str
  query : Option Str
  fragment : Option Str
  deriving DecidableEq

def parseUrl (s : Str) : Option UrlParts :=
  match breakFirst ':' s with
  | (_, none) => none
  | (scheme, some rest) =>
    if scheme = [] then none
    else
      match rest with
      | '/' :: '/' :: rest2 =>
        let b1 := breakFirst '#' rest2
        let b2 := breakFirst '?' b1.1
        let b3 := breakFirst '/' b2.1
        if b3.1 = [] then none
        else
          let path := match b3.2 with
            | none => []
            | some p => '/' :: p
          some ⟨scheme, b3.1, path, b2.2, b1.2⟩
      | _ => none

def normParts (p : UrlParts) : Str :=
  lowerStr p.scheme ++ str "://" ++ lowerStr p.host ++ p.path

def stripLead : Str → Str → Option Str
  | [], s => some s
  | _ :: _, [] => none
  | x :: xs, y :: ys => if x = y then stripLead xs ys else none

def articleTitle (p : UrlParts) : Option Str := stripLead (str "/wiki/") p.path

def validParts (p : UrlParts) : Bool :=
  (lowerStr p.scheme == str "http" || lowerStr p.scheme == str "https") &&
  !p.host.isEmpty &&
  (match articleTitle p with
   | some t => !t.isEmpty && !(t.contains ':')
   | none => false)

inductive PipelineError where
  | invalidUrl (s : Str)
  | fetchError
  | emptyContent
  | quizGeneration
  | storeError
  deriving DecidableEq

def validateUrl (u : Str) : Except PipelineError Str :=
  match parseUrl u with
  | none => .error (.invalidUrl u)
  | some p => if validParts p then .ok (normParts p) else .error (.invalidUrl u)

/-! ## Data model (spec section 3) -/

inductive Difficulty where
  | easy
  | medium
  | hard
  deriving DecidableEq

structure QuizQuestion where
  question : Str
  options : List Str
  answer : Str
  difficulty : Difficulty
  explanation : Str
  deriving DecidableEq

structure Entities where
  people : List Str
  organizations : List Str
  locations : List Str
  deriving DecidableEq

structure ArticleDigest where
  title : Str
  summary : Str
  sections : List Str
  entities : Entities
  deriving DecidableEq

structure Quiz where
  id : Nat
  url : Str
  title : Str
  summary : Str
  key_entities : Entities
  sections : List Str
  quiz : List QuizQuestion
  related_topics : List Str
  created_at : Nat
  deriving DecidableEq

structure RecordSummary where
  id : Nat
  title : Str
  url : Str
  question_count : Nat
  created_at : Nat
  deriving DecidableEq

/-! ## Content extractor

Modelled from the spec: the backend scraper (spec section 4.2) is not among
the sources. The fetched page is modelled as plain text where lines
starting with a hash mark stand for the second-level-or-deeper headings of
the page; the remaining lines are the main content. The summary is a fixed
deterministic truncation of the content, sections are the heading titles
minus the boilerplate headings the spec excludes, and entities follow the
capitalized-word heuristic of spec section 4.2 step 5 (the spec leaves the
person/organization/location bucket markers open, so all extracted names
are bucketed as people). Fails with emptyContent when the content is below
the minimum length threshold, a tunable constant per spec section 9. -/

def minContentLen : Nat := 10

def summaryLen : Nat := 500

def minQuestions : Nat := 3

def maxQuestions : Nat := 10

def maxRelatedTopics : Nat := 10

def splitOnChar (c0 : Char) (s : Str) : List Str :=
  s.foldr (fun c acc =>
    match acc with
    | [] => [[c]]
    | l :: ls => if c = c0 then [] :: l :: ls else (c :: l) :: ls) [[]]

def splitLines (s : Str) : List Str := splitOnChar '\n' s

def isHeadingLine (l : Str) : Bool :=
  match l with
  | '#' :: _ => true
  | _ => false

def headingTitle (l : Str) : Str :=
  (l.dropWhile (· = '#')).dropWhile (· = ' ')

def boilerplateHeadings : List Str :=
  [str "References", str "External links", str "See also"]

def dedupFirst : List Str → List Str
  | [] => []
  | x :: xs => x :: (dedupFirst xs).filter (fun y => !(y == x))

def capitalizedWords (s : Str) : List Str :=
  (splitOnChar ' ' s).filter (fun w =>
    match w with
    | c :: _ => c.isUpper
    | [] => false)

def extract_digest (html : Str) : Except PipelineError ArticleDigest :=
  let ls := splitLines html
  let headings := (ls.filter isHeadingLine).map headingTitle
  let body := List.intercalate [' '] (ls.filter (fun l => !(isHeadingLine l)))
  if body.length < minContentLen then .error .emptyContent
  else
    .ok { title := ls.headD []
          summary := body.take summaryLen
          sections := headings.filter (fun h => !(boilerplateHeadings.contains h))
          entities := { people := dedupFirst (capitalizedWords body)
                        organizations := []
                        locations := [] } }

/-! ## Prompt builder

Modelled from the spec: the backend prompt template (spec section 4.3) is
not among the sources. A pure deterministic serialization of the digest
that restates its summary, sections and entities and spells out the JSON
schema and the question-count and difficulty instructions. -/

def build_prompt (d : ArticleDigest) : Str :=
  str "You are a quiz generator. Article title: " ++ d.title ++
  str "\nSummary: " ++ d.summary ++
  str "\nSections: " ++ List.intercalate (str "; ") d.sections ++
  str "\nPeople: " ++ List.intercalate (str "; ") d.entities.people ++
  str "\nOrganizations: " ++ List.intercalate (str "; ") d.entities.organizations ++
  str "\nLocations: " ++ List.intercalate (str "; ") d.entities.locations ++
  str "\nReturn between 5 and 10 questions covering a spread of easy, medium and hard difficulties." ++
  str "\nReturn only a single JSON object with a field quiz holding an array of objects with fields question (string), options (array of exactly 4 distinct strings), answer (string, copied verbatim from options), difficulty (easy, medium or hard) and explanation (string), and a field related_topics holding an array of strings."

/-! ## Untyped JSON values and the tolerant extraction step

Modelled from the spec: the backend quiz synthesizer (spec section 4.4) is
not among the sources. Per spec section 9 the model reply is handled as an
untyped parse step followed by an explicit schema-validation pass. The
extractor scans the raw reply for the first position from which a
well-formed JSON object parses, tolerating surrounding prose and code
fences but attempting no repair of malformed JSON input. -/

def lbrace : Char := Char.ofNat 123

def rbrace : Char := Char.ofNat 125

inductive JsonVal where
  | jnull
  | jbool (b : Bool)
  | jnum (n : Int)
  | jstr (s : Str)
  | jarr (xs : List JsonVal)
  | jobj (fields : List (Str × JsonVal))

def skipWs : Str → Str
  | [] => []
  | c :: rest =>
    if c = ' ' ∨ c = '\n' ∨ c = '\t' ∨ c = '\r' then skipWs rest else c :: rest

def unescapeChar (c : Char) : Char :=
  if c = 'n' then '\n' else if c = 't' then '\t' else if c = 'r' then '\r' else c

def parseStrBody : Str → Option (Str × Str)
  | [] => none
  | c :: rest =>
    if c = '"' then some ([], rest)
    else if c = '\\' then
      match rest with
      | [] => none
      | e :: rest2 =>
        match parseStrBody rest2 with
        | some (acc, r) => some (unescapeChar e :: acc, r)
        | none => none
    else
      match parseStrBody rest with
      | some (acc, r) => some (c :: acc, r)
      | none => none

def takeDigits : Str → Str × Str
  | [] => ([], [])
  | c :: rest =>
    if c.isDigit then
      let r := takeDigits rest
      (c :: r.1, r.2)
    else ([], c :: rest)

def digitsToNat (ds : Str) : Nat :=
  ds.foldl (fun acc c => acc * 10 + (c.toNat - 48)) 0

mutual

def parseJVal : Nat → Str → Option (JsonVal × Str)
  | 0, _ => none
  | Nat.succ fuel, s =>
    match skipWs s with
    | [] => none
    | c :: rest =>
      if c = '"' then
        match parseStrBody rest with
        | some (lit, r) => some (.jstr lit, r)
        | none => none
      else if c = lbrace then parseJObj fuel rest
      else if c = '[' then parseJArr fuel rest
      else if c = 't' then
        match rest with
        | 'r' :: 'u' :: 'e' :: r => some (.jbool true, r)
        | _ => none
      else if c = 'f' then
        match rest with
        | 'a' :: 'l' :: 's' :: 'e' :: r => some (.jbool false, r)
        | _ => none
      else if c = 'n' then
        match rest with
        | 'u' :: 'l' :: 'l' :: r => some (.jnull, r)
        | _ => none
      else if c = '-' then
        match takeDigits rest with
        | ([], _) => none
        | (ds, r) => some (.jnum (-(digitsToNat ds : Int)), r)
      else if c.isDigit then
        match takeDigits (c :: rest) with
        | (ds, r) => some (.jnum (digitsToNat ds), r)
      else none

def parseJObj : Nat → Str → Option (JsonVal × Str)
  | 0, _ => none
  | Nat.succ fuel, s =>
    match skipWs s with
    | [] => none
    | c :: r =>
      if c = rbrace then some (.jobj [], r)
      else
        match parseJFields fuel (c :: r) with
        | some (fs, r2) => some (.jobj fs, r2)
        | none => none

def parseJFields : Nat → Str → Option (List (Str × JsonVal) × Str)
  | 0, _ => none
  | Nat.succ fuel, s =>
    match skipWs s with
    | '"' :: rest =>
      match parseStrBody rest with
      | none => none
      | some (key, r1) =>
        match skipWs r1 with
        | ':' :: r2 =>
          match parseJVal fuel r2 with
          | none => none
          | some (v, r3) =>
            match skipWs r3 with
            | [] => none
            | c :: r4 =>
              if c = ',' then
                match parseJFields fuel r4 with
                | some (fs, r5) => some ((key, v) :: fs, r5)
                | none => none
              else if c = rbrace then some ([(key, v)], r4)
              else none
        | _ => none
    | _ => none

def parseJArr : Nat → Str → Option (JsonVal × Str)
  | 0, _ => none
  | Nat.succ fuel, s =>
    match skipWs s with
    | [] => none
    | c :: r =>
      if c = ']' then some (.jarr [], r)
      else
        match parseJItems fuel (c :: r) with
        | some (vs, r2) => some (.jarr vs, r2)
        | none => none

def parseJItems : Nat → Str → Option (List JsonVal × Str)
  | 0, _ => none
  | Nat.succ fuel, s =>
    match parseJVal fuel s with
    | none => none
    | some (v, r) =>
      match skipWs r with
      | ',' :: r2 =>
        match parseJItems fuel r2 with
        | some (vs, r3) => some (v :: vs, r3)
        | none => none
      | ']' :: r2 => some ([v], r2)
      | _ => none

end

def extractFirstJson : Str → Option JsonVal
  | [] => none
  | c :: rest =>
    if c = lbrace then
      match parseJObj (rest.length + 1) rest with
      | some (v, _) => some v
      | none => extractFirstJson rest
    else extractFirstJson rest

/-! ## Schema validation and synthesis

Modelled from the spec: per spec section 4.4 each candidate question is
validated field by field (exactly 4 mutually distinct options, answer
present among the options, difficulty one of the three allowed values,
question and explanation non-empty); failing questions are dropped, and if
fewer than minQuestions valid questions remain the whole synthesis fails
with quizGeneration. The kept questions are capped at maxQuestions, the
upper bound the quiz schema of spec section 3 and the testable property of
spec section 8 impose; related topics are deduplicated and capped at
maxRelatedTopics. -/

def lookupField (k : Str) (fs : List (Str × JsonVal)) : Option JsonVal :=
  match fs.find? (fun p => p.1 == k) with
  | some p => some p.2
  | none => none

def asStr : JsonVal → Option Str
  | .jstr s => some s
  | _ => none

def asStrList : List JsonVal → Option (List Str)
  | [] => some []
  | x :: rest =>
    match asStr x, asStrList rest with
    | some s, some ss => some (s :: ss)
    | _, _ => none

def parseDifficulty (s : Str) : Option Difficulty :=
  if s = str "easy" then some .easy
  else if s = str "medium" then some .medium
  else if s = str "hard" then some .hard
  else none

def validateQuestion (j : JsonVal) : Option QuizQuestion :=
  match j with
  | .jobj fs =>
    match lookupField (str "question") fs, lookupField (str "options") fs,
          lookupField (str "answer") fs, lookupField (str "difficulty") fs,
          lookupField (str "explanation") fs with
    | some (.jstr q), some (.jarr opts), some (.jstr ans),
      some (.jstr diff), some (.jstr expl) =>
      match asStrList opts with
      | none => none
      | some optStrs =>
        match parseDifficulty diff with
        | none => none
        | some d =>
          if optStrs.length = 4 ∧ optStrs.Nodup ∧ ans ∈ optStrs ∧
              q ≠ [] ∧ expl ≠ [] then
            some ⟨q, optStrs, ans, d, expl⟩
          else none
    | _, _, _, _, _ => none
  | _ => none

structure SynthResult where
  questions : List QuizQuestion
  related_topics : List Str
  deriving DecidableEq

def synthesize (_digest : ArticleDigest) (response : Str) :
    Except PipelineError SynthResult :=
  match extractFirstJson response with
  | none => .error .quizGeneration
  | some j =>
    match j with
    | .jobj fs =>
      match lookupField (str "quiz") fs with
      | some (.jarr items) =>
        let valid := items.filterMap validateQuestion
        if valid.length < minQuestions then .error .quizGeneration
        else
          let topics :=
            match lookupField (str "related_topics") fs with
            | some (.jarr ts) => (dedupFirst (ts.filterMap asStr)).take maxRelatedTopics
            | _ => []
          .ok ⟨valid.take maxQuestions, topics⟩
      | _ => .error .quizGeneration
    | _ => .error .quizGeneration

/-! ## Store and orchestrator

Modelled from the spec: the backend store interface and orchestrator (spec
sections 4.5, 4.6 and 6) are not among the sources. The store is the
record list plus the next surrogate id; the environment carries the two
two outside capabilities (HTML fetcher and LLM provider) and the insertion
timestamp. A run result reports the outcome, the resulting store and how
many fetcher and LLM calls the run performed. -/

structure Store where
  records : List Quiz
  nextId : Nat
  deriving DecidableEq

def emptyStore : Store := ⟨[], 1⟩

def find_by_url (st : Store) (u : Str) : Option Quiz :=
  st.records.find? (fun q => q.url == u)

def get_quiz (st : Store) (i : Nat) : Option Quiz :=
  st.records.find? (fun q => q.id == i)

def toSummary (q : Quiz) : RecordSummary :=
  ⟨q.id, q.title, q.url, q.quiz.length, q.created_at⟩

def list_quizzes (st : Store) : List RecordSummary := st.records.map toSummary

def insertQuiz (st : Store) (q : Quiz) : Store :=
  ⟨st.records ++ [q], st.nextId + 1⟩

def delete_quiz (st : Store) (i : Nat) : Store × Bool :=
  if (st.records.find? (fun q => q.id == i)).isSome then
    (⟨st.records.filter (fun q => !(q.id == i)), st.nextId⟩, true)
  else (st, false)

structure Env where
  fetch : Str → Option Str
  complete : Str → Str
  now : Nat

instance {ε α : Type} [DecidableEq ε] [DecidableEq α] :
    DecidableEq (Except ε α) := fun x y =>
  match x, y with
  | .ok a, .ok b =>
    if h : a = b then .isTrue (by rw [h])
    else .isFalse (by intro he; cases he; exact h rfl)
  | .error a, .error b =>
    if h : a = b then .isTrue (by rw [h])
    else .isFalse (by intro he; cases he; exact h rfl)
  | .ok _, .error _ => .isFalse (by intro he; cases he)
  | .error _, .ok _ => .isFalse (by intro he; cases he)

structure RunResult where
  result : Except PipelineError Quiz
  store : Store
  fetchCalls : Nat
  llmCalls : Nat
  deriving DecidableEq

def mkQuiz (i : Nat) (u : Str) (ts : Nat) (d : ArticleDigest)
    (s : SynthResult) : Quiz :=
  ⟨i, u, d.title, d.summary, d.entities, d.sections, s.questions,
    s.related_topics, ts⟩

def runPipeline (env : Env) (st : Store) (nurl : Str) : RunResult :=
  match env.fetch nurl with
  | none => ⟨.error .fetchError, st, 1, 0⟩
  | some html =>
    match extract_digest html with
    | .error e => ⟨.error e, st, 1, 0⟩
    | .ok digest =>
      match synthesize digest (env.complete (build_prompt digest)) with
      | .error e => ⟨.error e, st, 1, 1⟩
      | .ok syn =>
        let q := mkQuiz st.nextId nurl env.now digest syn
        ⟨.ok q, insertQuiz st q, 1, 1⟩

def generate_quiz (env : Env) (st : Store) (raw : Str) : RunResult :=
  match validateUrl raw with
  | .error e => ⟨.error e, st, 0, 0⟩
  | .ok nurl =>
    match find_by_url st nurl with
    | some q => ⟨.ok q, st, 0, 0⟩
    | none => runPipeline env st nurl

/-! ## Shape invariants of generated quizzes (spec sections 3 and 8) -/

def QuestionShapeOk (qq : QuizQuestion) : Prop :=
  qq.options.length = 4 ∧ qq.options.Nodup ∧ qq.answer ∈ qq.options

def QuizShapeOk (q : Quiz) : Prop :=
  3 ≤ q.quiz.length ∧ q.quiz.length ≤ 10 ∧ ∀ qq ∈ q.quiz, QuestionShapeOk qq

def StoreWf (st : Store) : Prop :=
  (∀ q ∈ st.records, q.id < st.nextId) ∧ (st.records.map Quiz.id).Nodup

/-! ## Concrete instances used to exercise the definitions -/

def demoHtml : Str := str "Alan Turing\nAlan Turing was a British mathematician and pioneer of computer science who worked at Bletchley Park.\n# Early life\nTuring studied at Cambridge and later at Princeton.\n# Legacy\nThe Turing machine and the Turing test are named after him.\n# References\nIgnored."

def demoResp : Str := str "Here is the quiz: \x7b\"quiz\":[\x7b\"question\":\"Where did Turing study?\",\"options\":[\"Cambridge\",\"Oxford\",\"Harvard\",\"MIT\"],\"answer\":\"Cambridge\",\"difficulty\":\"easy\",\"explanation\":\"Early life section.\"\x7d,\x7b\"question\":\"What is named after Turing?\",\"options\":[\"A machine\",\"A bridge\",\"A planet\",\"A river\"],\"answer\":\"A machine\",\"difficulty\":\"medium\",\"explanation\":\"Legacy section.\"\x7d,\x7b\"question\":\"Where did Turing work?\",\"options\":[\"Bletchley Park\",\"Hyde Park\",\"Central Park\",\"Gorky Park\"],\"answer\":\"Bletchley Park\",\"difficulty\":\"hard\",\"explanation\":\"Summary.\"\x7d],\"related_topics\":[\"Cryptography\",\"Computer science\"]\x7d"

def demoEnv : Env := ⟨fun _ => some demoHtml, fun _ => demoResp, 42⟩

def demoEnvFail : Env := ⟨fun _ => none, fun _ => [], 0⟩

def demoUrl : Str := str "https://en.wikipedia.org/wiki/Alan_Turing"

def demoUrlCaps : Str := str "https://EN.wikipedia.org/wiki/Alan_Turing?x=1#y"

def demoRun : RunResult := generate_quiz demoEnv emptyStore demoUrl

def demoQuiz : Quiz :=
  match demoRun.result with
  | .ok q => q
  | .error _ => ⟨0, [], [], [], ⟨[], [], []⟩, [], [], [], 0⟩

def demoRunCaps : RunResult := generate_quiz demoEnv emptyStore demoUrlCaps

def demoQuizCaps : Quiz :=
  match demoRunCaps.result with
  | .ok q => q
  | .error _ => ⟨0, [], [], [], ⟨[], [], []⟩, [], [], [], 0⟩

def fallbackParts : UrlParts := ⟨[], [], [], none, none⟩

def demoPartsCaps : UrlParts :=
  match parseUrl demoUrlCaps with
  | some p => p
  | none => fallbackParts

def demoParts : UrlParts :=
  match parseUrl demoUrl with
  | some p => p
  | none => fallbackParts

def demoLongUrl : Str :=
  str "https://en.wikipedia.org/wiki/A_very_long_article_title_that_exceeds_the_limit"

/-! ## Theorems -/

theorem str_dots_length : (str "...").length = 3 := rfl

/-- C10: truncateUrl with its default maximum of 50 returns every string of
length at most 50 unchanged, and for every longer string returns exactly
its first 50 characters followed by three dots, so its output never
exceeds 53 characters. -/
theorem truncateUrl_bounds (url : Str) :
    (url.length ≤ 50 → truncateUrlDefault url = url) ∧
    (50 < url.length → truncateUrlDefault url = url.take 50 ++ str "...") ∧
    (truncateUrlDefault url).length ≤ 53 := by
  unfold truncateUrlDefault truncateUrl
  by_cases h : url.length ≤ 50
  · refine ⟨fun _ => by simp [h], fun h2 => absurd h (by omega), ?_⟩
    simp [h]; omega
  · refine ⟨fun h2 => absurd h2 h, fun _ => by simp [h], ?_⟩
    have h3 := str_dots_length
    simp [h, List.length_append, List.length_take, h3]

/-- Witness for C10 at two concrete URLs, one short and one of length
greater than 50. -/
theorem truncateUrl_bounds_witness :
    truncateUrlDefault (str "https://en.wikipedia.org/wiki/Foo") =
      str "https://en.wikipedia.org/wiki/Foo" ∧
    truncateUrlDefault demoLongUrl = demoLongUrl.take 50 ++ str "..." :=
  ⟨(truncateUrl_bounds (str "https://en.wikipedia.org/wiki/Foo")).1 (by decide),
   (truncateUrl_bounds demoLongUrl).2.1 (by decide)⟩

/-- C9: in QuizCard, once the question is answered or the card is in
show-answers mode, clicking an option leaves the whole card state, and in
particular the selected option, unchanged. -/
theorem quizcard_selection_locked (showAnswers : Bool) (st : QuizCardState)
    (opt : Str) (h : st.isAnswered = true ∨ showAnswers = true) :
    handleOptionClick showAnswers st opt = st := by
  unfold handleOptionClick
  rcases h with h | h <;> simp [h]

/-- Witness for C9: clicking Oxford on an already answered card that has
Cambridge selected changes nothing. -/
theorem quizcard_selection_locked_witness :
    handleOptionClick false ⟨some (str "Cambridge"), true⟩ (str "Oxford") =
      ⟨some (str "Cambridge"), true⟩ :=
  quizcard_selection_locked false ⟨some (str "Cambridge"), true⟩ (str "Oxford")
    (Or.inl rfl)

/-- C6 counterexample: the api service surfaces a client-side timeout with
exactly the same message as any other failure that produced no response,
so a timeout is not surfaced distinctly from other failures. -/
theorem timeout_not_distinct :
    generateQuizErrorMessage ⟨true, none⟩ =
      generateQuizErrorMessage ⟨false, none⟩ := rfl

/-- C6 (amended): the api service applies a 60000 millisecond request
timeout; every failure surfaces a human-readable message, namely the
detail carried by the backend response when one is present (so bad-input
and provider failures are distinguishable exactly as far as their detail
texts differ) and the generic fallback text whenever no response arrived,
which is why a timeout is not surfaced distinctly. -/
theorem error_surface_messages :
    apiTimeoutMs = 60000 ∧
    (∀ e : AxiosError, e.responseDetail = none →
      generateQuizErrorMessage e = fallbackGenerateMsg) ∧
    (∀ e : AxiosError, ∀ d : Str, e.responseDetail = some d → d ≠ [] →
      generateQuizErrorMessage e = d) := by
  refine ⟨rfl, ?_, ?_⟩
  · intro e he
    unfold generateQuizErrorMessage
    rw [he]
  · intro e d he hd
    unfold generateQuizErrorMessage
    rw [he]
    simp [List.isEmpty_iff, hd]

/-- Witness for C6 (amended) at a timeout error and at a backend detail. -/
theorem error_surface_messages_witness :
    generateQuizErrorMessage ⟨true, none⟩ = fallbackGenerateMsg ∧
    generateQuizErrorMessage ⟨false, some (str "Invalid Wikipedia URL")⟩ =
      str "Invalid Wikipedia URL" :=
  ⟨error_surface_messages.2.1 ⟨true, none⟩ rfl,
   error_surface_messages.2.2 ⟨false, some (str "Invalid Wikipedia URL")⟩
     (str "Invalid Wikipedia URL") rfl (by decide)⟩

/-- C3: generate_quiz rejects the string "not a url" and the
administrative page Special:Random with invalidUrl, leaving the store
untouched and performing no fetcher or LLM call whatsoever, for every
environment and store; the client-side gate of GenerateQuiz.jsx already
blocks "not a url" but lets the Special:Random URL through to the
validator. -/
theorem invalid_url_rejection (env : Env) (st : Store) :
    generate_quiz env st (str "not a url") =
      ⟨.error (.invalidUrl (str "not a url")), st, 0, 0⟩ ∧
    generate_quiz env st (str "https://en.wikipedia.org/wiki/Special:Random") =
      ⟨.error (.invalidUrl (str "https://en.wikipedia.org/wiki/Special:Random")), st, 0, 0⟩ ∧
    frontendUrlCheck (str "not a url") = false ∧
    frontendUrlCheck (str "https://en.wikipedia.org/wiki/Special:Random") = true :=
  ⟨rfl, rfl, by decide, by decide⟩

/-- C8: every record summary listed by list_quizzes is the on-the-fly
projection of a stored quiz with the same id, whose question_count equals
the length of the question sequence of that quiz. -/
theorem summary_counts_questions (st : Store) (s : RecordSummary)
    (hs : s ∈ list_quizzes st) :
    ∃ q, q ∈ st.records ∧ s.id = q.id ∧ s.title = q.title ∧ s.url = q.url ∧
      s.question_count = q.quiz.length ∧ s.created_at = q.created_at := by
  unfold list_quizzes at hs
  obtain ⟨q, hq, rfl⟩ := List.mem_map.1 hs
  exact ⟨q, hq, rfl, rfl, rfl, rfl, rfl⟩

theorem validateQuestion_shape (j : JsonVal) (qq : QuizQuestion)
    (h : validateQuestion j = some qq) : QuestionShapeOk qq := by
  unfold validateQuestion at h
  repeat' split at h
  all_goals try exact Option.noConfusion h
  rename_i hc
  injection h with h2
  subst h2
  exact ⟨hc.1, hc.2.1, hc.2.2.1⟩

theorem take_shape (L : List QuizQuestion) (hL : ¬ L.length < 3)
    (hall : ∀ qq ∈ L, QuestionShapeOk qq) :
    3 ≤ (L.take 10).length ∧ (L.take 10).length ≤ 10 ∧
    ∀ qq ∈ L.take 10, QuestionShapeOk qq := by
  refine ⟨?_, ?_, fun qq hqq => hall qq (List.mem_of_mem_take hqq)⟩ <;>
    rw [List.length_take] <;> omega

theorem synthesize_shape (d : ArticleDigest) (r : Str) (syn : SynthResult)
    (h : synthesize d r = .ok syn) :
    3 ≤ syn.questions.length ∧ syn.questions.length ≤ 10 ∧
    ∀ qq ∈ syn.questions, QuestionShapeOk qq := by
  unfold synthesize at h
  repeat' split at h
  all_goals try exact Except.noConfusion h
  all_goals simp only [] at h
  all_goals split at h
  all_goals try exact Except.noConfusion h
  all_goals rename_i hnotlt
  all_goals injection h with h2
  all_goals subst h2
  all_goals exact take_shape _ hnotlt (fun qq hqq =>
    (List.mem_filterMap.1 hqq).elim (fun j hj => validateQuestion_shape j qq hj.2))

theorem runPipeline_ok (env : Env) (st : Store) (nurl : Str) (q : Quiz)
    (h : (runPipeline env st nurl).result = .ok q) :
    q.url = nurl ∧ q.id = st.nextId ∧
    (runPipeline env st nurl).store = insertQuiz st q ∧ QuizShapeOk q := by
  cases hf : env.fetch nurl with
  | none => simp only [runPipeline, hf] at h; exact Except.noConfusion h
  | some html =>
    cases hd : extract_digest html with
    | error e => simp only [runPipeline, hf, hd] at h; exact Except.noConfusion h
    | ok digest =>
      cases hs : synthesize digest (env.complete (build_prompt digest)) with
      | error e =>
        simp only [runPipeline, hf, hd, hs] at h; exact Except.noConfusion h
      | ok syn =>
        simp only [runPipeline, hf, hd, hs] at h
        injection h with h2
        subst h2
        obtain ⟨s1, s2, s3⟩ := synthesize_shape digest _ syn hs
        exact ⟨rfl, rfl, by simp only [runPipeline, hf, hd, hs], s1, s2, s3⟩

theorem runPipeline_err_store (env : Env) (st : Store) (nurl : Str)
    (e : PipelineError) (h : (runPipeline env st nurl).result = .error e) :
    (runPipeline env st nurl).store = st := by
  cases hf : env.fetch nurl with
  | none => simp only [runPipeline, hf]
  | some html =>
    cases hd : extract_digest html with
    | error e2 => simp only [runPipeline, hf, hd]
    | ok digest =>
      cases hs : synthesize digest (env.complete (build_prompt digest)) with
      | error e2 => simp only [runPipeline, hf, hd, hs]
      | ok syn =>
        simp only [runPipeline, hf, hd, hs] at h
        exact Except.noConfusion h

theorem generate_quiz_cache_hit (env : Env) (st : Store) (raw nurl : Str)
    (q : Quiz) (hv : validateUrl raw = .ok nurl)
    (hf : find_by_url st nurl = some q) :
    generate_quiz env st raw = ⟨.ok q, st, 0, 0⟩ := by
  simp only [generate_quiz, hv, hf]

theorem generate_quiz_ok_url (env : Env) (st : Store) (raw : Str) (q : Quiz)
    (h : (generate_quiz env st raw).result = .ok q) :
    validateUrl raw = .ok q.url ∧
    find_by_url ((generate_quiz env st raw).store) q.url = some q := by
  cases hv : validateUrl raw with
  | error e => simp only [generate_quiz, hv] at h; exact Except.noConfusion h
  | ok nurl =>
    cases hf : find_by_url st nurl with
    | some q2 =>
      unfold find_by_url at hf
      have hq : q2 = q := by
        simp only [generate_quiz, find_by_url, hv, hf] at h
        exact Except.ok.inj h
      subst hq
      have hurl : q2.url = nurl := by simpa using List.find?_some hf
      constructor
      · rw [hurl]
      · simp only [generate_quiz, hv, find_by_url, hf, hurl]
    | none =>
      have hr : (runPipeline env st nurl).result = .ok q := by
        simpa only [generate_quiz, hv, hf] using h
      obtain ⟨hurl, _, hstore, _⟩ := runPipeline_ok env st nurl q hr
      subst hurl
      refine ⟨rfl, ?_⟩
      have hg : (generate_quiz env st raw).store = (runPipeline env st q.url).store := by
        simp only [generate_quiz, hv, hf]
      rw [hg, hstore]
      unfold find_by_url at hf ⊢
      unfold insertQuiz
      simp only [List.find?_append, hf, Option.none_or]
      simp

theorem find_by_id_of_nodup (l : List Quiz) (hn : (l.map Quiz.id).Nodup)
    (q : Quiz) (hq : q ∈ l) :
    l.find? (fun r => r.id == q.id) = some q := by
  induction l with
  | nil => cases hq
  | cons x xs ih =>
    rcases List.mem_cons.1 hq with rfl | hq2
    · simp [List.find?_cons]
    · rw [List.map_cons] at hn
      obtain ⟨h1, h2⟩ := List.nodup_cons.1 hn
      have hx : (x.id == q.id) = false := by
        have hqin : q.id ∈ xs.map Quiz.id := List.mem_map_of_mem Quiz.id hq2
        simp only [beq_eq_false_iff_ne, ne_eq]
        intro he
        exact h1 (he ▸ hqin)
      rw [List.find?_cons, hx]
      exact ih h2 hq2

/-- C1: every quiz returned by a successful generate_quiz call, over any
store whose records already satisfy the shape invariant, has between 3 and
10 questions, each with exactly 4 pairwise-distinct options and an answer
equal to one of those options. -/
theorem generated_quiz_shape (env : Env) (st : Store) (raw : Str)
    (hinv : ∀ q ∈ st.records, QuizShapeOk q) (q : Quiz)
    (h : (generate_quiz env st raw).result = .ok q) : QuizShapeOk q := by
  cases hv : validateUrl raw with
  | error e => simp only [generate_quiz, hv] at h; exact Except.noConfusion h
  | ok nurl =>
    cases hf : find_by_url st nurl with
    | some q2 =>
      unfold find_by_url at hf
      have hq : q2 = q := by
        simp only [generate_quiz, find_by_url, hv, hf] at h
        exact Except.ok.inj h
      subst hq
      exact hinv q2 (List.mem_of_find?_eq_some hf)
    | none =>
      have hr : (runPipeline env st nurl).result = .ok q := by
        simpa only [generate_quiz, hv, hf] using h
      exact (runPipeline_ok env st nurl q hr).2.2.2

set_option maxRecDepth 40000 in
/-- Witness for C1: a successful concrete run from the empty store yields a
quiz satisfying the shape invariant. -/
theorem generated_quiz_shape_witness : QuizShapeOk demoQuiz :=
  generated_quiz_shape demoEnv emptyStore demoUrl
    (fun q hq => absurd hq (List.not_mem_nil q)) demoQuiz rfl

/-- C2: whenever generate_quiz succeeds, running it again on the resulting
store with the same URL returns the very same quiz (in particular the same
id) as a cache hit: it performs zero fetcher calls, zero LLM calls and
leaves the store unchanged, so no second scrape-and-generate cycle runs
for that URL. -/
theorem generate_quiz_idempotent (env : Env) (st : Store) (raw : Str)
    (q1 : Quiz) (h : (generate_quiz env st raw).result = .ok q1) :
    generate_quiz env ((generate_quiz env st raw).store) raw =
      ⟨.ok q1, (generate_quiz env st raw).store, 0, 0⟩ := by
  obtain ⟨hv, hf⟩ := generate_quiz_ok_url env st raw q1 h
  exact generate_quiz_cache_hit env _ raw q1.url q1 hv hf

set_option maxRecDepth 40000 in
/-- Witness for C2 at a concrete successful run from the empty store. -/
theorem generate_quiz_idempotent_witness :
    generate_quiz demoEnv demoRun.store demoUrl =
      ⟨.ok demoQuiz, demoRun.store, 0, 0⟩ :=
  generate_quiz_idempotent demoEnv emptyStore demoUrl demoQuiz rfl

/-- C4: when generate_quiz fails with a typed error nothing is persisted:
the store is returned unchanged, and therefore a subsequent call for the
same URL performs the very same full pipeline run rather than returning a
cached failure. -/
theorem failed_run_persists_nothing (env : Env) (st : Store) (raw : Str)
    (e : PipelineError) (h : (generate_quiz env st raw).result = .error e) :
    (generate_quiz env st raw).store = st ∧
    generate_quiz env ((generate_quiz env st raw).store) raw =
      generate_quiz env st raw := by
  have hst : (generate_quiz env st raw).store = st := by
    cases hv : validateUrl raw with
    | error e2 => simp only [generate_quiz, hv]
    | ok nurl =>
      cases hf : find_by_url st nurl with
      | some q2 => simp only [generate_quiz, hv, hf] at h; exact Except.noConfusion h
      | none =>
        have h2 : (runPipeline env st nurl).result = .error e := by
          simpa only [generate_quiz, hv, hf] using h
        have h3 := runPipeline_err_store env st nurl e h2
        simpa only [generate_quiz, hv, hf] using h3
  exact ⟨hst, by rw [hst]⟩

set_option maxRecDepth 40000 in
/-- Witness for C4 at a concrete run whose fetch fails. -/
theorem failed_run_persists_nothing_witness :
    (generate_quiz demoEnvFail emptyStore demoUrl).store = emptyStore ∧
    generate_quiz demoEnvFail ((generate_quiz demoEnvFail emptyStore demoUrl).store) demoUrl =
      generate_quiz demoEnvFail emptyStore demoUrl :=
  failed_run_persists_nothing demoEnvFail emptyStore demoUrl .fetchError rfl

theorem lowerStr_isEmpty_congr (a b : Str) (h : lowerStr a = lowerStr b) :
    a.isEmpty = b.isEmpty := by
  cases a <;> cases b <;> simp_all [lowerStr]

theorem validParts_congr (p1 p2 : UrlParts)
    (hs : lowerStr p1.scheme = lowerStr p2.scheme)
    (hh : lowerStr p1.host = lowerStr p2.host)
    (hp : p1.path = p2.path) : validParts p1 = validParts p2 := by
  unfold validParts articleTitle
  rw [hs, hp, lowerStr_isEmpty_congr p1.host p2.host hh]

/-- C5: two input URLs that parse into components sharing the same path and
agreeing on scheme and host up to letter case (so differing only in query
string, fragment, or scheme and host case) normalize to the same key:
whenever generate_quiz succeeds on the first, it resolves the second to
the very same cached record with no fetcher and no LLM call. -/
theorem normalized_urls_share_cache (u1 u2 : Str) (p1 p2 : UrlParts)
    (env : Env) (st : Store) (q1 : Quiz)
    (h1 : parseUrl u1 = some p1) (h2 : parseUrl u2 = some p2)
    (hs : lowerStr p1.scheme = lowerStr p2.scheme)
    (hh : lowerStr p1.host = lowerStr p2.host)
    (hp : p1.path = p2.path)
    (hok : (generate_quiz env st u1).result = .ok q1) :
    validateUrl u1 = .ok q1.url ∧ validateUrl u2 = .ok q1.url ∧
    generate_quiz env ((generate_quiz env st u1).store) u2 =
      ⟨.ok q1, (generate_quiz env st u1).store, 0, 0⟩ := by
  obtain ⟨hv1, hf1⟩ := generate_quiz_ok_url env st u1 q1 hok
  have hvp : validParts p1 = validParts p2 := validParts_congr p1 p2 hs hh hp
  have hnp : normParts p1 = normParts p2 := by
    unfold normParts
    rw [hs, hh, hp]
  have hv1e : validateUrl u1 =
      (if validParts p1 then .ok (normParts p1) else .error (.invalidUrl u1)) := by
    simp only [validateUrl, h1]
  have hv2 : validateUrl u2 = .ok q1.url := by
    simp only [validateUrl, h2]
    rw [← hvp, ← hnp]
    cases hb : validParts p1 with
    | true =>
      rw [hv1e, hb, if_pos rfl] at hv1
      simpa using hv1
    | false =>
      rw [hv1e, hb, if_neg (by simp)] at hv1
      exact Except.noConfusion hv1
  exact ⟨hv1, hv2, generate_quiz_cache_hit env _ u2 q1.url q1 hv2 hf1⟩

set_option maxRecDepth 40000 in
/-- Witness for C5 at the concrete pair of URLs from the spec, differing in
scheme and host case, query and fragment. -/
theorem normalized_urls_share_cache_witness :
    validateUrl demoUrlCaps = .ok demoQuizCaps.url ∧
    validateUrl demoUrl = .ok demoQuizCaps.url ∧
    generate_quiz demoEnv demoRunCaps.store demoUrl =
      ⟨.ok demoQuizCaps, demoRunCaps.store, 0, 0⟩ :=
  normalized_urls_share_cache demoUrlCaps demoUrl demoPartsCaps demoParts
    demoEnv emptyStore demoQuizCaps rfl rfl rfl rfl rfl rfl

/-- C7: for every id returned by a successful generate_quiz call over a
well-formed store, get_quiz on the resulting store returns a quiz equal in
all fields to the one generate_quiz returned. -/
theorem get_after_generate_roundtrip (env : Env) (st : Store) (raw : Str)
    (q : Quiz) (hwf : StoreWf st)
    (h : (generate_quiz env st raw).result = .ok q) :
    get_quiz ((generate_quiz env st raw).store) q.id = some q := by
  cases hv : validateUrl raw with
  | error e => simp only [generate_quiz, hv] at h; exact Except.noConfusion h
  | ok nurl =>
    cases hf : find_by_url st nurl with
    | some q2 =>
      unfold find_by_url at hf
      have hq : q2 = q := by
        simp only [generate_quiz, find_by_url, hv, hf] at h
        exact Except.ok.inj h
      subst hq
      have hmem : q2 ∈ st.records := List.mem_of_find?_eq_some hf
      have hfind := find_by_id_of_nodup st.records hwf.2 q2 hmem
      simp only [generate_quiz, find_by_url, hv, hf, get_quiz]
      exact hfind
    | none =>
      have hr : (runPipeline env st nurl).result = .ok q := by
        simpa only [generate_quiz, hv, hf] using h
      obtain ⟨_, hid, hstore, _⟩ := runPipeline_ok env st nurl q hr
      have hg : (generate_quiz env st raw).store = insertQuiz st q := by
        simp only [generate_quiz, hv, hf]
        exact hstore
      rw [hg]
      unfold get_quiz insertQuiz
      have hnone : st.records.find? (fun r => r.id == q.id) = none := by
        rw [List.find?_eq_none]
        intro r hr2
        have hlt : r.id < st.nextId := hwf.1 r hr2
        simp only [beq_iff_eq]
        omega
      simp only [List.find?_append, hnone, Option.none_or]
      simp

set_option maxRecDepth 40000 in
/-- Witness for C7 at a concrete successful run from the empty store, which
is well-formed. -/
theorem get_after_generate_roundtrip_witness :
    get_quiz demoRun.store demoQuiz.id = some demoQuiz :=
  get_after_generate_roundtrip demoEnv emptyStore demoUrl demoQuiz
    ⟨fun q hq => absurd hq (List.not_mem_nil q), by simp [emptyStore]⟩ rfl

set_option maxRecDepth 40000 in
/-- Witness for C8: the summary of the concrete stored demo quiz counts its
questions. -/
theorem summary_counts_questions_witness :
    ∃ q, q ∈ demoRun.store.records ∧ (toSummary demoQuiz).id = q.id ∧
      (toSummary demoQuiz).title = q.title ∧ (toSummary demoQuiz).url = q.url ∧
      (toSummary demoQuiz).question_count = q.quiz.length ∧
      (toSummary demoQuiz).created_at = q.created_at :=
  summary_counts_questions demoRun.store (toSummary demoQuiz) (by decide)
